import Mathlib

/-!
Shallow embedding of the Rooguys Node.js SDK request-execution and
error-normalization core (src/http-client.ts and the errors module),
together with theorems settling the frozen claims about it.

JavaScript values that flow through the pipeline (response bodies, header
values, error payloads) are modelled by the inductive `JsValue`; JS
truthiness, `typeof v === 'object'`, property access and the `||` operator
are modelled explicitly, because the source leans on them everywhere.
Machine integers are modelled as `Int`; the result of `parseInt` is
`Option Int`, with `none` standing for `NaN`.
-/

namespace Rooguys

/-- Model of a JavaScript/JSON value as it appears in response bodies.
`undefined` models `undefined` (an absent property), `null` models `null`. -/
inductive JsValue where
  | undefined : JsValue
  | null : JsValue
  | bool (b : Bool) : JsValue
  | num (n : Int) : JsValue
  | str (s : String) : JsValue
  | arr (elements : List JsValue) : JsValue
  | obj (fields : List (String × JsValue)) : JsValue

/-- JS truthiness: `undefined`, `null`, `false`, `0` and `""` are falsy;
objects and arrays are always truthy. -/
def JsValue.truthy : JsValue → Bool
  | .undefined => false
  | .null => false
  | .bool b => b
  | .num n => n != 0
  | .str s => s != ""
  | .arr _ => true
  | .obj _ => true

/-- JS `typeof v === 'object'`: true for objects, arrays and `null`. -/
def JsValue.isObjType : JsValue → Bool
  | .null => true
  | .arr _ => true
  | .obj _ => true
  | _ => false

/-- JS property read `v[key]`: `undefined` when `v` is not an object or the
key is missing.  This also models optional chaining `v?.key`, since reading
a property of `null`/`undefined` through `?.` yields `undefined`. -/
def JsValue.getField : JsValue → String → JsValue
  | .obj fields, key =>
    match fields.find? (fun kv => kv.1 == key) with
    | some kv => kv.2
    | none => .undefined
  | _, _ => .undefined

/-- JS `key in v` for object values. -/
def JsValue.hasField : JsValue → String → Bool
  | .obj fields, key => fields.any (fun kv => kv.1 == key)
  | _, _ => false

/-- JS `a || b` on values: returns `a` when truthy, else `b`. -/
def jsOr (a b : JsValue) : JsValue := if a.truthy then a else b

/-- Truthiness of a `string | undefined` value (header reads):
truthy iff present and non-empty. -/
def strOptTruthy : Option String → Bool
  | some s => s != ""
  | none => false

/-- JS `a || b` on `string | undefined` values. -/
def jsOrStr (a b : Option String) : Option String :=
  if strOptTruthy a then a else b

/-- JS `a || d` with a string-literal default `d`. -/
def jsStrDefault (a : Option String) (d : String) : String :=
  match a with
  | some s => if s != "" then s else d
  | none => d

/-- Whitespace skipped by JS `parseInt` (ASCII part). -/
def isJsSpace (c : Char) : Bool :=
  c == ' ' || c == '\t' || c == '\n' || c == '\r' ||
  c == Char.ofNat 11 || c == Char.ofNat 12

/-- Numeric value of a decimal digit character. -/
def digitVal (c : Char) : Nat := c.toNat - 48

/-- Decimal value of a list of digit characters. -/
def parseDigits (ds : List Char) : Nat :=
  ds.foldl (fun acc c => acc * 10 + digitVal c) 0

/-- Model of JS `parseInt(s, 10)`: skip leading whitespace, accept an
optional sign, then read the longest digit prefix; `none` models `NaN`
(no digits found). -/
def parseIntBase10 (s : String) : Option Int :=
  let cs := s.data.dropWhile isJsSpace
  let signed : Bool × List Char :=
    match cs with
    | '-' :: rest => (true, rest)
    | '+' :: rest => (false, rest)
    | _ => (false, cs)
  let ds := signed.2.takeWhile Char.isDigit
  if ds.isEmpty then none
  else if signed.1 then some (-(parseDigits ds : Int))
  else some ((parseDigits ds : Int))

/-- ASCII lower-casing of a character, as JS `toLowerCase` acts on the
header names used by the source. -/
def jsToLowerChar (c : Char) : Char :=
  if 'A' ≤ c ∧ c ≤ 'Z' then Char.ofNat (c.toNat + 32) else c

/-- Model of JS `String.prototype.toLowerCase` on ASCII strings. -/
def jsToLower (s : String) : String := ⟨s.data.map jsToLowerChar⟩

/-- A JS header record `Record<string, string | undefined>`. -/
abbrev HeadersMap := String → Option String

/-- The local `getHeader` helper of `extractRateLimitInfo` and
`extractRequestId`: `headers[name] || headers[name.toLowerCase()]`. -/
def getHeaderCI (headers : HeadersMap) (name : String) : Option String :=
  jsOrStr (headers name) (headers (jsToLower name))

/-- Rate limit information extracted from response headers.  Each field is
the result of `parseInt`, so `none` models `NaN`. -/
structure RateLimitInfo where
  limit : Option Int
  remaining : Option Int
  reset : Option Int
deriving Repr, DecidableEq

/-- Embedding of `extractRateLimitInfo` from src/http-client.ts. -/
def extractRateLimitInfo (headers : HeadersMap) : RateLimitInfo :=
  { limit := parseIntBase10 (jsStrDefault
      (jsOrStr (getHeaderCI headers "X-RateLimit-Limit")
               (getHeaderCI headers "x-ratelimit-limit")) "1000")
  , remaining := parseIntBase10 (jsStrDefault
      (jsOrStr (getHeaderCI headers "X-RateLimit-Remaining")
               (getHeaderCI headers "x-ratelimit-remaining")) "1000")
  , reset := parseIntBase10 (jsStrDefault
      (jsOrStr (getHeaderCI headers "X-RateLimit-Reset")
               (getHeaderCI headers "x-ratelimit-reset")) "0") }

/-- Embedding of `extractRequestId` from src/http-client.ts: header first
(both casings), then `body.request_id`, then `body.requestId`, else null. -/
def extractRequestId (headers : HeadersMap) (body : JsValue) : JsValue :=
  let headerRequestId :=
    jsOrStr (getHeaderCI headers "X-Request-Id") (getHeaderCI headers "x-request-id")
  if strOptTruthy headerRequestId then
    .str (headerRequestId.getD "")
  else if body.truthy && body.isObjType then
    jsOr (body.getField "request_id") (jsOr (body.getField "requestId") .null)
  else
    .null

/-- Result of `parseResponseBody`.  A field holds `none` when the source
object literal omits the property entirely, and `some v` when the property
is present with value `v` (possibly `undefined`). -/
structure ParsedResponseBody where
  data : Option JsValue
  error : Option JsValue
  pagination : Option JsValue
  requestId : Option JsValue

/-- Embedding of `parseResponseBody` from src/http-client.ts. -/
def parseResponseBody (body : JsValue) : ParsedResponseBody :=
  if !body.truthy || !body.isObjType then
    { data := some body, error := none, pagination := some .null, requestId := some .null }
  else
    match body.getField "success" with
    | .bool b =>
      if b then
        let d := if body.hasField "data" then body.getField "data" else body
        { data := some d, error := none
        , pagination := some (jsOr (body.getField "pagination") .null)
        , requestId := some (jsOr (body.getField "request_id") .null) }
      else
        { data := none, error := some (body.getField "error")
        , pagination := none
        , requestId := some (jsOr (body.getField "request_id") .null) }
    | _ =>
      { data := some body, error := none
      , pagination := some (jsOr (body.getField "pagination") .null)
      , requestId := some .null }

/-- The eight kinds of typed failure in the error taxonomy
(src errors module). -/
inductive ErrorKind where
  | validation
  | authentication
  | forbidden
  | notFound
  | conflict
  | rateLimit
  | server
  | generic
deriving Repr, DecidableEq

/-- Model of a constructed error object from the errors module.  `kind`
records which class was instantiated; `name` mirrors the `name` property.
`message`, `code` and `requestId` are kept as `JsValue`s because the source
passes body-derived values through unchecked casts.  `retryAfter` is only
meaningful for `rateLimit` errors (the other classes have no such
property); `none` models `NaN`.  `fieldErrors` is only meaningful for
`validation` errors. -/
structure RooguysError where
  kind : ErrorKind
  name : String
  message : JsValue
  code : JsValue
  requestId : JsValue
  statusCode : Int
  fieldErrors : JsValue
  retryAfter : Option Int

/-- Direct construction `new RooguysError(message, statusCode, code)` as done
in the executor's timeout/network fallback branches; `requestId` defaults
to null. -/
def RooguysError.base (message : JsValue) (code : String) (statusCode : Int) : RooguysError :=
  { kind := .generic, name := "RooguysError", message, code := .str code
  , requestId := .null, statusCode, fieldErrors := .null, retryAfter := none }

/-- The `ErrorResponseHeaders` interface of the errors module: the two
casings of the retry-after header, each possibly absent. -/
structure ErrorResponseHeaders where
  retryAfterLower : Option String
  retryAfterCanonical : Option String

/-- Embedding of `mapStatusToError` from the errors module: resolve
message, code and field details from the (possibly malformed) error body,
then dispatch on the status code.  The function is total — the source
never throws, and malformed bodies degrade to the defaults. -/
def mapStatusToError (status : Int) (errorBody : JsValue) (requestId : JsValue)
    (headers : ErrorResponseHeaders) : RooguysError :=
  let errVal := errorBody.getField "error"
  let errorObj := if errVal.isObjType then errVal else .null
  let message := jsOr (errorObj.getField "message")
    (jsOr (match errVal with | .str s => .str s | _ => .null)
      (jsOr (errorBody.getField "message") (.str "An error occurred")))
  let code := jsOr (errorObj.getField "code")
    (jsOr (errorBody.getField "code") (.str "UNKNOWN_ERROR"))
  let fieldErrors := jsOr (errorObj.getField "details")
    (jsOr (errorBody.getField "details") .null)
  if status = 400 then
    { kind := .validation, name := "ValidationError", message, code, requestId
    , statusCode := 400, fieldErrors, retryAfter := none }
  else if status = 401 then
    { kind := .authentication, name := "AuthenticationError", message, code, requestId
    , statusCode := 401, fieldErrors := .null, retryAfter := none }
  else if status = 403 then
    { kind := .forbidden, name := "ForbiddenError", message, code, requestId
    , statusCode := 403, fieldErrors := .null, retryAfter := none }
  else if status = 404 then
    { kind := .notFound, name := "NotFoundError", message, code, requestId
    , statusCode := 404, fieldErrors := .null, retryAfter := none }
  else if status = 409 then
    { kind := .conflict, name := "ConflictError", message, code, requestId
    , statusCode := 409, fieldErrors := .null, retryAfter := none }
  else if status = 429 then
    { kind := .rateLimit, name := "RateLimitError", message, code, requestId
    , statusCode := 429, fieldErrors := .null
    , retryAfter := parseIntBase10 (jsStrDefault
        (jsOrStr headers.retryAfterLower headers.retryAfterCanonical) "60") }
  else if 500 ≤ status then
    { kind := .server, name := "ServerError", message, code, requestId
    , statusCode := status, fieldErrors := .null, retryAfter := none }
  else
    { kind := .generic, name := "RooguysError", message, code, requestId
    , statusCode := status, fieldErrors := .null, retryAfter := none }

/-- The `HttpClientOptions` bag passed to the constructor; `none` models an
omitted option. -/
structure HttpClientOptions where
  baseUrl : Option String := none
  timeout : Option Int := none
  autoRetry : Option Bool := none
  maxRetries : Option Int := none
  retryDelay : Option Int := none

/-- The configuration fields the constructor stores on the client. -/
structure HttpClientState where
  apiKey : String
  baseUrl : String
  timeout : Int
  autoRetry : Bool
  maxRetries : Int
  retryDelay : Int

/-- JS `a || d` on `number | undefined` option values: an explicit `0`
(falsy) also falls back to the default. -/
def jsNumDefault (a : Option Int) (d : Int) : Int :=
  match a with
  | some n => if n ≠ 0 then n else d
  | none => d

/-- JS `a || false` on `boolean | undefined` option values. -/
def jsBoolDefault (a : Option Bool) : Bool :=
  match a with
  | some b => b
  | none => false

/-- Embedding of the `HttpClient` constructor's option defaulting, which
uses `||` throughout. -/
def mkHttpClient (apiKey : String) (options : HttpClientOptions) : HttpClientState :=
  { apiKey
  , baseUrl := jsStrDefault options.baseUrl "https://api.rooguys.com/v1"
  , timeout := jsNumDefault options.timeout 10000
  , autoRetry := jsBoolDefault options.autoRetry
  , maxRetries := jsNumDefault options.maxRetries 3
  , retryDelay := jsNumDefault options.retryDelay 1000 }

/-- Predicate for values dropped by `buildParams`
(`value === undefined || value === null`). -/
def isNullish : JsValue → Bool
  | .undefined => true
  | .null => true
  | _ => false

/-- JS object property assignment `obj[key] = v` on an object represented
as an insertion-ordered association list: overwrite in place when the key
exists, append otherwise. -/
def objInsert (obj : List (String × JsValue)) (key : String) (v : JsValue) :
    List (String × JsValue) :=
  if obj.any (fun kv => kv.1 == key) then
    obj.map (fun kv => if kv.1 == key then (key, v) else kv)
  else
    obj ++ [(key, v)]

/-- Embedding of `HttpClient.buildParams`: iterate over the entries of the
params object and copy every entry whose value is neither `undefined` nor
`null` into a fresh object. -/
def buildParams (params : List (String × JsValue)) : List (String × JsValue) :=
  params.foldl
    (fun cleaned kv => if isNullish kv.2 then cleaned else objInsert cleaned kv.1 kv.2) []

/-- What one dispatch of the transport collaborator (axios) can produce, as
observed by the executor's try/catch:
the promise resolves (`ok`); it rejects with an axios error carrying a
structured HTTP response (`httpError`); it rejects with an axios error
whose `response` is `undefined` (`axiosNoResponse`); or it rejects with a
value for which `axios.isAxiosError` is false (`exception`, `some m` when
the thrown value is an `Error` with message `m`, `none` otherwise). -/
inductive TransportOutcome where
  | ok (headers : HeadersMap) (body : JsValue)
  | httpError (status : Int) (headers : HeadersMap) (body : JsValue)
  | axiosNoResponse (message : String)
  | exception (message : Option String)

/-- The `ApiResponse` returned by a successful `request`. -/
structure ApiResponse where
  data : JsValue
  requestId : JsValue
  rateLimit : RateLimitInfo
  pagination : Option JsValue

/-- Outcome of the executor: a normalized result or a thrown typed error. -/
inductive RequestResult where
  | ok (response : ApiResponse)
  | err (e : RooguysError)

/-- Whether `needle` is a prefix of `hay`, on character lists. -/
def charsPrefixOf : List Char → List Char → Bool
  | [], _ => true
  | _ :: _, [] => false
  | a :: as, b :: bs => a == b && charsPrefixOf as bs

/-- Whether `needle` occurs contiguously inside `hay`. -/
def charsContains (hay needle : List Char) : Bool :=
  match hay with
  | [] => charsPrefixOf needle []
  | _ :: rest => charsPrefixOf needle hay || charsContains rest needle

/-- JS `s.includes(sub)` substring test. -/
def jsIncludes (s sub : String) : Bool := charsContains s.data sub.data

/-- Interpretation of a resolved transport response (the body of the `try`
block in `HttpClient.request`): extract rate limit and request id, parse
the body, and either throw a status-400 mapped error (when the parsed
envelope carries a truthy `error`) or return the normalized result. -/
def interpretOk (headers : HeadersMap) (body : JsValue) : RequestResult :=
  let rateLimit := extractRateLimitInfo headers
  let requestId := extractRequestId headers body
  let parsed := parseResponseBody body
  let parsedError := parsed.error.getD .undefined
  if parsedError.truthy then
    .err (mapStatusToError 400 (.obj [("error", parsedError)]) requestId ⟨none, none⟩)
  else
    .ok { data := parsed.data.getD .undefined
        , requestId := jsOr requestId (jsOr (parsed.requestId.getD .undefined) .null)
        , rateLimit
        , pagination := parsed.pagination }

/-- Classification of an axios error that carries a structured HTTP
response: `responseData = response.data || null`, request id from the
response headers/body, and `mapStatusToError` with the two casings of the
retry-after header. -/
def interpretHttpError (status : Int) (headers : HeadersMap) (body : JsValue) : RooguysError :=
  let responseData := jsOr body .null
  let requestId := extractRequestId headers responseData
  mapStatusToError status responseData requestId ⟨headers "retry-after", headers "Retry-After"⟩

/-- Classification of an axios error whose `response` is `undefined`:
`status = response?.status || 0` gives 0, `responseData` is null and the
headers record is empty, so this goes through `mapStatusToError` with
status 0. -/
def noResponseError : RooguysError :=
  mapStatusToError 0 .null (extractRequestId (fun _ => none) .null) ⟨none, none⟩

/-- The executor's fallback branches for thrown values that are not axios
errors: an `Error` whose message contains "timeout" becomes TIMEOUT/408,
anything else becomes NETWORK_ERROR/0 (message preserved when the thrown
value was an `Error`). -/
def interpretException (message : Option String) : RooguysError :=
  match message with
  | some m =>
    if jsIncludes m "timeout" then RooguysError.base (.str "Request timeout") "TIMEOUT" 408
    else RooguysError.base (.str m) "NETWORK_ERROR" 0
  | none => RooguysError.base (.str "Network error") "NETWORK_ERROR" 0

/-- Embedding of `HttpClient.request`.  The transport collaborator is an
oracle giving the outcome of the n-th dispatch (indexed by the retry
counter, which the source increments by exactly one per re-dispatch).  The
second component counts how many dispatch attempts were performed.  The
retry branch mirrors the source condition
`this.autoRetry && mappedError instanceof RateLimitError && retryCount < this.maxRetries`;
the sleep between attempts has no observable effect in this model. -/
def request (cfg : HttpClientState) (transport : Nat → TransportOutcome)
    (retryCount : Nat) : RequestResult × Nat :=
  match transport retryCount with
  | .ok headers body => (interpretOk headers body, 1)
  | .httpError status headers body =>
    let mapped := interpretHttpError status headers body
    if h : cfg.autoRetry = true ∧ mapped.kind = .rateLimit ∧ (retryCount : Int) < cfg.maxRetries then
      let next := request cfg transport (retryCount + 1)
      (next.1, next.2 + 1)
    else
      (.err mapped, 1)
  | .axiosNoResponse _ => (.err noResponseError, 1)
  | .exception message => (.err (interpretException message), 1)
termination_by (cfg.maxRetries - (retryCount : Int)).toNat
decreasing_by
  simp_wf
  omega

/-- The status-to-kind table exactly as the spec words it
(400 Validation, 401 Authentication, 403 Forbidden, 404 NotFound,
409 Conflict, 429 RateLimit, at least 500 Server, anything else Generic),
stated as its own definition so that `mapStatusToError` can be compared
against it. -/
def specKindOfStatus (status : Int) : ErrorKind :=
  if status = 400 then .validation
  else if status = 401 then .authentication
  else if status = 403 then .forbidden
  else if status = 404 then .notFound
  else if status = 409 then .conflict
  else if status = 429 then .rateLimit
  else if 500 ≤ status then .server
  else .generic

/-- Whether a value is an object whose `success` property is a boolean,
i.e. whether `parseResponseBody` takes the standardized-envelope branch
rather than one of the two pass-through branches. -/
def hasBoolSuccess (v : JsValue) : Bool :=
  v.truthy && v.isObjType &&
    (match v.getField "success" with | .bool _ => true | _ => false)

/-- A headers record with no headers at all. -/
def emptyHeaders : HeadersMap := fun _ => none

/-- A standardized error envelope whose `error` value is falsy (the empty
string). -/
def falsyErrorBody : JsValue := .obj [("success", .bool false), ("error", .str "")]

/-- A standardized error envelope with a truthy `error` value. -/
def boomBody : JsValue := .obj [("success", .bool false), ("error", .str "boom")]

/-- An error envelope, used as the `data` payload of `outerEnvelope`. -/
def innerEnvelope : JsValue := .obj [("success", .bool false), ("error", .str "boom")]

/-- A success envelope whose unwrapped `data` is itself an envelope. -/
def outerEnvelope : JsValue := .obj [("success", .bool true), ("data", innerEnvelope)]

attribute [ext] RateLimitInfo

/-- A headers record populating the canonical-case rate limit headers. -/
def canonicalRLHeaders (l r s : Option String) : HeadersMap := fun name =>
  if name = "X-RateLimit-Limit" then l
  else if name = "X-RateLimit-Remaining" then r
  else if name = "X-RateLimit-Reset" then s
  else none

/-- A headers record populating the lowercase rate limit headers. -/
def lowercaseRLHeaders (l r s : Option String) : HeadersMap := fun name =>
  if name = "x-ratelimit-limit" then l
  else if name = "x-ratelimit-remaining" then r
  else if name = "x-ratelimit-reset" then s
  else none

/-- The expected value of one rate limit field as the spec words it: a
present non-empty header value is parsed as a base-10 integer, while an
absent header — or a present empty one, which the `||` chain treats as
missing — yields the field's default.  Stated as its own definition so
each field of `extractRateLimitInfo` can be compared against it. -/
def specRateLimitField (value : Option String) (missing : Int) : Option Int :=
  match value with
  | some v => if v ≠ "" then parseIntBase10 v else some missing
  | none => some missing

theorem mapStatusToError_kind (status : Int) (errorBody requestId : JsValue)
    (headers : ErrorResponseHeaders) :
    (mapStatusToError status errorBody requestId headers).kind = specKindOfStatus status := by
  simp only [mapStatusToError, specKindOfStatus]
  split_ifs <;> rfl

theorem mapStatusToError_statusCode (status : Int) (errorBody requestId : JsValue)
    (headers : ErrorResponseHeaders) :
    (mapStatusToError status errorBody requestId headers).statusCode = status := by
  simp only [mapStatusToError]
  split_ifs <;> simp_all

theorem specKindOfStatus_rateLimit_iff (status : Int) :
    specKindOfStatus status = .rateLimit ↔ status = 429 := by
  simp only [specKindOfStatus]
  split_ifs <;> simp_all

theorem interpretHttpError_kind (status : Int) (headers : HeadersMap) (body : JsValue) :
    (interpretHttpError status headers body).kind = specKindOfStatus status := by
  simp only [interpretHttpError]
  exact mapStatusToError_kind _ _ _ _

/-- Attempt count and surfaced failure for a transport that fails every
dispatch with status 429, for any client with auto-retry enabled: one
initial attempt plus one retry for every unit of headroom left under
`maxRetries`. -/
theorem request_always429 (cfg : HttpClientState) (transport : Nat → TransportOutcome)
    (hauto : cfg.autoRetry = true)
    (h429 : ∀ n, ∃ hd b, transport n = TransportOutcome.httpError 429 hd b) :
    ∀ r, (request cfg transport r).2 = (cfg.maxRetries - (r : Int)).toNat + 1 ∧
      ∃ e, (request cfg transport r).1 = .err e ∧ e.kind = .rateLimit := by
  have key : ∀ (k : Nat) (r : Nat), (cfg.maxRetries - (r : Int)).toNat = k →
      (request cfg transport r).2 = k + 1 ∧
      ∃ e, (request cfg transport r).1 = .err e ∧ e.kind = .rateLimit := by
    intro k
    induction k with
    | zero =>
      intro r hk
      obtain ⟨hd, b, htr⟩ := h429 r
      have hkind : (interpretHttpError 429 hd b).kind = .rateLimit := by
        rw [interpretHttpError_kind]
        simp [specKindOfStatus_rateLimit_iff]
      have hcond : ¬ ((r : Int) < cfg.maxRetries) := by omega
      unfold request
      rw [htr]
      dsimp only
      rw [dif_neg (fun hc => hcond hc.2.2)]
      exact ⟨rfl, _, rfl, hkind⟩
    | succ k ih =>
      intro r hk
      obtain ⟨hd, b, htr⟩ := h429 r
      have hkind : (interpretHttpError 429 hd b).kind = .rateLimit := by
        rw [interpretHttpError_kind]
        simp [specKindOfStatus_rateLimit_iff]
      have hcond : (r : Int) < cfg.maxRetries := by omega
      have hnext := ih (r + 1) (by omega)
      unfold request
      rw [htr]
      dsimp only
      rw [dif_pos ⟨hauto, hkind, hcond⟩]
      refine ⟨?_, hnext.2⟩
      rw [hnext.1]
  intro r
  exact key _ r rfl

theorem request_non429_single (cfg : HttpClientState) (transport : Nat → TransportOutcome)
    (status : Int) (hd : HeadersMap) (b : JsValue)
    (htr : transport 0 = TransportOutcome.httpError status hd b) (hne : status ≠ 429) :
    (request cfg transport 0).2 = 1 ∧
    (request cfg transport 0).1 = .err (interpretHttpError status hd b) := by
  have hkind : (interpretHttpError status hd b).kind ≠ .rateLimit := by
    rw [interpretHttpError_kind]
    simp [specKindOfStatus_rateLimit_iff, hne]
  unfold request
  rw [htr]
  dsimp only
  rw [dif_neg (fun hc => hkind hc.2.1)]
  exact ⟨rfl, rfl⟩

/-- C1: with auto-retry enabled and maxRetries = 3, a transport failing
every dispatch with HTTP 429 makes exactly 4 attempts (1 initial plus 3
retries) and surfaces a RateLimit failure, while a transport failing with
any non-429 status makes exactly 1 attempt and propagates the classified
failure: only RateLimit errors are ever retried. -/
theorem claim1_retry_bound (cfg : HttpClientState)
    (hauto : cfg.autoRetry = true) (hmax : cfg.maxRetries = 3) :
    (∀ transport, (∀ n, ∃ hd b, transport n = TransportOutcome.httpError 429 hd b) →
      (request cfg transport 0).2 = 4 ∧
      ∃ e, (request cfg transport 0).1 = .err e ∧ e.kind = .rateLimit) ∧
    (∀ transport status hd b,
      transport 0 = TransportOutcome.httpError status hd b → status ≠ 429 →
      (request cfg transport 0).2 = 1 ∧
      (request cfg transport 0).1 = .err (interpretHttpError status hd b)) := by
  constructor
  · intro transport h429
    have h := request_always429 cfg transport hauto h429 0
    rw [hmax] at h
    exact ⟨by simpa using h.1, h.2⟩
  · intro transport status hd b htr hne
    exact request_non429_single cfg transport status hd b htr hne

/-- C2: for every integer status, every error body value (including null
and malformed shapes), every request id and every headers record,
`mapStatusToError` returns the single typed failure dictated by the fixed
table (stated as `specKindOfStatus`), and the failure's `statusCode` always
preserves the status (in particular for the generic catch-all).  The
embedding is a total function, matching the source's never-throws
behavior. -/
theorem claim2_status_table (status : Int) (errorBody requestId : JsValue)
    (headers : ErrorResponseHeaders) :
    (mapStatusToError status errorBody requestId headers).kind = specKindOfStatus status ∧
    (mapStatusToError status errorBody requestId headers).statusCode = status :=
  ⟨mapStatusToError_kind status errorBody requestId headers,
   mapStatusToError_statusCode status errorBody requestId headers⟩

theorem claim1_retry_bound_witness :
    (request (mkHttpClient "key" { autoRetry := some true })
      (fun _ => TransportOutcome.httpError 429 (fun _ => none) .null) 0).2 = 4 ∧
    (request (mkHttpClient "key" { autoRetry := some true })
      (fun _ => TransportOutcome.httpError 500 (fun _ => none) .null) 0).2 = 1 := by
  constructor
  · exact ((claim1_retry_bound _ rfl rfl).1 _ (fun n => ⟨_, _, rfl⟩)).1
  · exact ((claim1_retry_bound _ rfl rfl).2 _ 500 _ _ rfl (by norm_num)).1

theorem mapStatusToError_429_retryAfter (errorBody requestId : JsValue)
    (headers : ErrorResponseHeaders) :
    (mapStatusToError 429 errorBody requestId headers).retryAfter =
      parseIntBase10 (jsStrDefault
        (jsOrStr headers.retryAfterLower headers.retryAfterCanonical) "60") := by
  norm_num [mapStatusToError]

/-- C4 (amended): the RateLimit failure's retryAfterSeconds is the base-10
parse of the first truthy (present and non-empty) of the lowercase and
canonical retry-after headers; when both are absent or empty it is 60;
when the chosen header value is unparsable the value is NaN (no default is
applied).  The original claim's "equals 60 when unparsable" is refuted by
the counterexample. -/
theorem claim4_retry_after (errorBody requestId : JsValue) (headers : ErrorResponseHeaders) :
    ((strOptTruthy headers.retryAfterLower = false ∧
      strOptTruthy headers.retryAfterCanonical = false) →
      (mapStatusToError 429 errorBody requestId headers).retryAfter = some 60) ∧
    (∀ s, headers.retryAfterLower = some s → s ≠ "" →
      (mapStatusToError 429 errorBody requestId headers).retryAfter = parseIntBase10 s) ∧
    (∀ s, strOptTruthy headers.retryAfterLower = false →
      headers.retryAfterCanonical = some s → s ≠ "" →
      (mapStatusToError 429 errorBody requestId headers).retryAfter = parseIntBase10 s) := by
  rw [and_iff_right]
  rotate_left
  · intro hfal
    rw [mapStatusToError_429_retryAfter]
    rw [jsOrStr, if_neg (by simp [hfal.1])]
    rcases hc : headers.retryAfterCanonical with _ | t
    · rfl
    · have ht : (t != "") = false := by
        have := hfal.2
        rwa [hc, strOptTruthy] at this
      simp [jsStrDefault, ht]
      decide
  constructor
  · intro s hs hne
    rw [mapStatusToError_429_retryAfter]
    have ht : (s != "") = true := by simp [hne]
    rw [hs, jsOrStr]
    rw [if_pos (by simp [strOptTruthy, ht])]
    simp [jsStrDefault, ht]
  · intro s hlow hs hne
    rw [mapStatusToError_429_retryAfter]
    have ht : (s != "") = true := by simp [hne]
    rw [jsOrStr, if_neg (by simp [hlow]), hs]
    simp [jsStrDefault, ht]

theorem claim4_retry_after_witness :
    (mapStatusToError 429 .null .null ⟨none, some "30"⟩).retryAfter = parseIntBase10 "30" ∧
    parseIntBase10 "30" = some 30 ∧
    (mapStatusToError 429 .null .null ⟨some "", none⟩).retryAfter = some 60 := by
  refine ⟨?_, by decide, ?_⟩
  · exact (claim4_retry_after .null .null ⟨none, some "30"⟩).2.2 "30" rfl rfl (by decide)
  · exact (claim4_retry_after .null .null ⟨some "", none⟩).1 ⟨by decide, by decide⟩

/-- C4 counterexample: with a present but unparsable retry-after header
(the non-numeric string "abc"), the code stores the raw parseInt result —
NaN, modelled as `none` — on the RateLimit failure; the destructuring
default of 60 only applies to `undefined`, so the claimed fallback to 60
does not happen. -/
theorem claim4_counterexample :
    (mapStatusToError 429 .null .null ⟨some "abc", none⟩).retryAfter = none ∧
    (mapStatusToError 429 .null .null ⟨some "abc", none⟩).retryAfter ≠ some 60 := by
  constructor
  · decide
  · decide

/-- C5 (amended): for every payload and every non-empty request id string,
parsing the success envelope yields exactly the payload as data and the id
as requestId (with null pagination and no error).  For the empty id the
`|| null` in the source turns the present id into null — see the
counterexample. -/
theorem claim5_success_roundtrip (payload : JsValue) (id : String) (hne : id ≠ "") :
    parseResponseBody
        (.obj [("success", .bool true), ("data", payload), ("request_id", .str id)]) =
      { data := some payload, error := none, pagination := some .null
      , requestId := some (.str id) } := by
  have step : parseResponseBody
      (.obj [("success", .bool true), ("data", payload), ("request_id", .str id)]) =
      { data := some payload, error := none, pagination := some .null
      , requestId := some (jsOr (.str id) .null) } := rfl
  have ht : (JsValue.str id).truthy = true := by simp [JsValue.truthy, hne]
  rw [step, jsOr, if_pos ht]

theorem claim5_success_roundtrip_witness :
    parseResponseBody
        (.obj [("success", .bool true), ("data", .num 7), ("request_id", .str "req-1")]) =
      { data := some (.num 7), error := none, pagination := some .null
      , requestId := some (.str "req-1") } :=
  claim5_success_roundtrip (.num 7) "req-1" (by decide)

/-- C5 counterexample: with the empty string as request id — a perfectly
JSON-serializable string — the parsed requestId is null, not the id, so
the round trip claimed for every string id fails. -/
theorem claim5_counterexample :
    (parseResponseBody
        (.obj [("success", .bool true), ("data", .num 7), ("request_id", .str "")])).requestId =
      some .null ∧
    some JsValue.null ≠ some (JsValue.str "") := by
  exact ⟨rfl, by simp⟩

/-- C7 (amended): `parseResponseBody` returns a value v unchanged as data
with requestId null whenever v is not an object carrying a boolean
`success` property — in particular for every object with no `success` key
and for every primitive.  This covers most data fields of non-error parse
results, but not all of them: an unwrapped payload that is itself an
envelope re-parses differently (see the counterexample). -/
theorem claim7_parse_passthrough (v : JsValue) (h : hasBoolSuccess v = false) :
    (parseResponseBody v).data = some v ∧ (parseResponseBody v).requestId = some .null := by
  unfold hasBoolSuccess at h
  unfold parseResponseBody
  by_cases hb : (!v.truthy || !v.isObjType) = true
  · rw [if_pos hb]
    exact ⟨rfl, rfl⟩
  · rw [if_neg hb]
    simp only [Bool.or_eq_true, Bool.not_eq_true', not_or, Bool.not_eq_false] at hb
    obtain ⟨h1, h2⟩ := hb
    rw [h1, h2] at h
    simp only [Bool.true_and] at h
    rcases hs : v.getField "success" with _ | _ | b | n | s | el | fl
    · simp [hs]
    · simp [hs]
    · rw [hs] at h
      simp at h
    · simp [hs]
    · simp [hs]
    · simp [hs]
    · simp [hs]

theorem claim7_parse_passthrough_witness :
    (parseResponseBody (.obj [("user_id", .str "u1"), ("points", .num 5)])).data =
      some (.obj [("user_id", .str "u1"), ("points", .num 5)]) ∧
    (parseResponseBody (.obj [("user_id", .str "u1"), ("points", .num 5)])).requestId =
      some .null :=
  claim7_parse_passthrough (.obj [("user_id", .str "u1"), ("points", .num 5)]) (by decide)

/-- C7 counterexample: the success envelope `outerEnvelope` parses without
error to the data payload `innerEnvelope`, but re-parsing that payload does
not return it unchanged: `innerEnvelope` carries its own boolean `success`
discriminant, so the second parse produces an error result with no data at
all.  Parse-then-reparse is therefore not a no-op on every non-error
output's data. -/
theorem claim7_counterexample :
    (parseResponseBody outerEnvelope).error = none ∧
    (parseResponseBody outerEnvelope).data = some innerEnvelope ∧
    (parseResponseBody innerEnvelope).data = none ∧
    (parseResponseBody innerEnvelope).data ≠ some innerEnvelope := by
  refine ⟨rfl, rfl, rfl, ?_⟩
  intro hcontra
  have : (none : Option JsValue) = some innerEnvelope := by
    rw [← hcontra]
    rfl
  exact Option.noConfusion this

theorem jsChainDefaultEq (a : Option String) (d : String) :
    jsStrDefault (jsOrStr (jsOrStr a none) (jsOrStr none none)) d =
      jsStrDefault (jsOrStr (jsOrStr none a) (jsOrStr a a)) d := by
  rcases a with _ | t
  · rfl
  · by_cases ht : t = ""
    · subst ht
      rfl
    · have h1 : (t != "") = true := by simp [ht]
      simp [jsOrStr, jsStrDefault, strOptTruthy, h1]

theorem rlChainSpec (a : Option String) (d : String) (m : Int)
    (hd : parseIntBase10 d = some m) :
    parseIntBase10 (jsStrDefault (jsOrStr (jsOrStr a none) (jsOrStr none none)) d) =
      specRateLimitField a m := by
  rcases a with _ | v
  · simpa [jsOrStr, jsStrDefault, strOptTruthy, specRateLimitField] using hd
  · by_cases hv : v = ""
    · subst hv
      simpa [jsOrStr, jsStrDefault, strOptTruthy, specRateLimitField] using hd
    · have h1 : (v != "") = true := by simp [hv]
      simp [jsOrStr, jsStrDefault, strOptTruthy, h1, specRateLimitField, hv]

/-- C8 (amended): the three rate limit headers are read by checking the
exact name and then its all-lowercase form, so for every combination of
the three header values, populating them under the canonical casing or
the lowercase casing produces identical results; and under either casing
every field independently follows `specRateLimitField`: a present
non-empty value is parsed as a base-10 integer, while a missing limit or
remaining header yields 1000 and a missing reset header yields 0 — with a
present empty-string value treated like a missing header (the defaults
apply) rather than being parsed, as the counterexample shows. -/
theorem claim8_rate_limit_headers (l r s : Option String) :
    extractRateLimitInfo (canonicalRLHeaders l r s) =
      extractRateLimitInfo (lowercaseRLHeaders l r s) ∧
    extractRateLimitInfo (canonicalRLHeaders l r s) =
      { limit := specRateLimitField l 1000
      , remaining := specRateLimitField r 1000
      , reset := specRateLimitField s 0 } ∧
    extractRateLimitInfo (lowercaseRLHeaders l r s) =
      { limit := specRateLimitField l 1000
      , remaining := specRateLimitField r 1000
      , reset := specRateLimitField s 0 } := by
  have hcase : extractRateLimitInfo (canonicalRLHeaders l r s) =
      extractRateLimitInfo (lowercaseRLHeaders l r s) := by
    apply RateLimitInfo.ext
    · exact congrArg parseIntBase10 (jsChainDefaultEq l "1000")
    · exact congrArg parseIntBase10 (jsChainDefaultEq r "1000")
    · exact congrArg parseIntBase10 (jsChainDefaultEq s "0")
  have hspec : extractRateLimitInfo (canonicalRLHeaders l r s) =
      { limit := specRateLimitField l 1000
      , remaining := specRateLimitField r 1000
      , reset := specRateLimitField s 0 } := by
    apply RateLimitInfo.ext
    · exact rlChainSpec l "1000" 1000 (by decide)
    · exact rlChainSpec r "1000" 1000 (by decide)
    · exact rlChainSpec s "0" 0 (by decide)
  exact ⟨hcase, hspec, hcase.symm.trans hspec⟩

theorem claim8_rate_limit_headers_witness :
    extractRateLimitInfo (canonicalRLHeaders (some "500") none (some "1712345678")) =
      extractRateLimitInfo (lowercaseRLHeaders (some "500") none (some "1712345678")) ∧
    extractRateLimitInfo (canonicalRLHeaders (some "500") none (some "1712345678")) =
      { limit := some 500, remaining := some 1000, reset := some 1712345678 } ∧
    extractRateLimitInfo (lowercaseRLHeaders (some "") (some "abc") none) =
      { limit := some 1000, remaining := none, reset := some 0 } := by
  have h1 := claim8_rate_limit_headers (some "500") none (some "1712345678")
  have h2 := claim8_rate_limit_headers (some "") (some "abc") none
  refine ⟨h1.1, h1.2.1.trans (by decide), h2.2.2.trans (by decide)⟩

/-- C8 counterexample: with the limit header present but holding the empty
string, the extracted limit is the default 1000, not the base-10 parse of
the present value (which would be NaN): the `||` chain in the source treats
a present falsy value as missing. -/
theorem claim8_counterexample :
    (extractRateLimitInfo (canonicalRLHeaders (some "") none none)).limit = some 1000 ∧
    parseIntBase10 "" = none ∧
    (extractRateLimitInfo (canonicalRLHeaders (some "") none none)).limit ≠ parseIntBase10 "" := by
  refine ⟨rfl, rfl, ?_⟩
  intro hcontra
  exact Option.noConfusion hcontra

theorem objInsert_fresh (obj : List (String × JsValue)) (key : String) (v : JsValue)
    (h : ∀ kv ∈ obj, kv.1 ≠ key) : objInsert obj key v = obj ++ [(key, v)] := by
  unfold objInsert
  rw [if_neg]
  intro hc
  obtain ⟨kv, hmem, hbeq⟩ := List.any_eq_true.mp hc
  exact h kv hmem (by simpa using hbeq)

theorem buildParams_go (params : List (String × JsValue)) :
    ∀ acc : List (String × JsValue),
      (params.map Prod.fst).Nodup →
      (∀ kv ∈ acc, kv.1 ∉ params.map Prod.fst) →
      params.foldl (fun cleaned kv =>
          if isNullish kv.2 then cleaned else objInsert cleaned kv.1 kv.2) acc =
        acc ++ params.filter (fun kv => !isNullish kv.2) := by
  induction params with
  | nil =>
    intro acc _ _
    simp
  | cons p rest ih =>
    intro acc hnd hdisj
    rw [List.foldl_cons]
    rw [List.map_cons] at hnd
    have hhead : p.1 ∉ rest.map Prod.fst := (List.nodup_cons.mp hnd).1
    have hnd' : (rest.map Prod.fst).Nodup := (List.nodup_cons.mp hnd).2
    have hdisj' : ∀ kv ∈ acc, kv.1 ∉ rest.map Prod.fst := by
      intro kv hm
      have := hdisj kv hm
      simp only [List.map_cons, List.mem_cons, not_or] at this
      exact this.2
    by_cases hz : isNullish p.2 = true
    · rw [if_pos hz, ih acc hnd' hdisj', List.filter_cons_of_neg (by simp [hz])]
    · rw [if_neg hz]
      have hfresh : ∀ kv ∈ acc, kv.1 ≠ p.1 := by
        intro kv hm
        have := hdisj kv hm
        simp only [List.map_cons, List.mem_cons, not_or] at this
        exact this.1
      rw [objInsert_fresh acc p.1 p.2 hfresh]
      have hdisj2 : ∀ kv ∈ acc ++ [(p.1, p.2)], kv.1 ∉ rest.map Prod.fst := by
        intro kv hm
        rcases List.mem_append.mp hm with hm | hm
        · exact hdisj' kv hm
        · have : kv = (p.1, p.2) := by simpa using hm
          rw [this]
          exact hhead
      rw [ih (acc ++ [(p.1, p.2)]) hnd' hdisj2,
        List.filter_cons_of_pos (by simp [hz])]
      simp

/-- C9: for every query-parameter map with distinct keys (the shape
`Object.entries` guarantees), the cleaned map built by `buildParams` drops
exactly the entries whose value is undefined or null, and keeps every
other entry unchanged and in order — in particular entries holding the
falsy values 0, false and the empty string survive. -/
theorem claim9_build_params (params : List (String × JsValue))
    (hnd : (params.map Prod.fst).Nodup) :
    buildParams params = params.filter (fun kv => !isNullish kv.2) := by
  unfold buildParams
  simpa using buildParams_go params [] hnd (by simp)

/-- C3 (amended): for every 2xx transport response whose parsed envelope
carries a truthy `error` value, the executor throws the Error Taxonomy
failure synthesized with a fixed status of 400 — a ValidationError with
statusCode 400 carrying the envelope error — after exactly one dispatch,
and no normalized result is returned.  An `error` value that is present
but falsy (such as the empty string) does not trigger this path — see the
counterexample. -/
theorem claim3_envelope_error (cfg : HttpClientState) (transport : Nat → TransportOutcome)
    (headers : HeadersMap) (body : JsValue)
    (htr : transport 0 = TransportOutcome.ok headers body)
    (herr : ((parseResponseBody body).error.getD .undefined).truthy = true) :
    (request cfg transport 0).1 =
      .err (mapStatusToError 400
        (.obj [("error", (parseResponseBody body).error.getD .undefined)])
        (extractRequestId headers body) ⟨none, none⟩) ∧
    (mapStatusToError 400
        (.obj [("error", (parseResponseBody body).error.getD .undefined)])
        (extractRequestId headers body) ⟨none, none⟩).kind = .validation ∧
    (mapStatusToError 400
        (.obj [("error", (parseResponseBody body).error.getD .undefined)])
        (extractRequestId headers body) ⟨none, none⟩).statusCode = 400 ∧
    (request cfg transport 0).2 = 1 := by
  have hmain : (request cfg transport 0).1 =
      .err (mapStatusToError 400
        (.obj [("error", (parseResponseBody body).error.getD .undefined)])
        (extractRequestId headers body) ⟨none, none⟩) ∧
      (request cfg transport 0).2 = 1 := by
    unfold request
    rw [htr]
    dsimp only
    unfold interpretOk
    dsimp only
    rw [if_pos herr]
    exact ⟨rfl, rfl⟩
  refine ⟨hmain.1, ?_, ?_, hmain.2⟩
  · exact (mapStatusToError_kind 400 _ _ _).trans rfl
  · exact mapStatusToError_statusCode 400 _ _ _

theorem claim3_envelope_error_witness :
    (request (mkHttpClient "key" {}) (fun _ => .ok emptyHeaders boomBody) 0).2 = 1 ∧
    (request (mkHttpClient "key" {}) (fun _ => .ok emptyHeaders boomBody) 0).1 =
      .err (mapStatusToError 400
        (.obj [("error", (parseResponseBody boomBody).error.getD .undefined)])
        (extractRequestId emptyHeaders boomBody) ⟨none, none⟩) := by
  have h := claim3_envelope_error (mkHttpClient "key" {})
    (fun _ => .ok emptyHeaders boomBody) emptyHeaders boomBody rfl (by decide)
  exact ⟨h.2.2.2, h.1⟩

/-- C3 counterexample: the 2xx envelope `falsyErrorBody` has success false
and its `error` field present (holding the empty string), yet the executor
does not throw: the truthiness test `if (parsed.error)` skips the falsy
error value and a NormalizedResult with undefined data is returned, even
though the claim says no result may be returned. -/
theorem claim3_counterexample :
    falsyErrorBody.getField "success" = .bool false ∧
    (parseResponseBody falsyErrorBody).error = some (.str "") ∧
    (request (mkHttpClient "key" {}) (fun _ => .ok emptyHeaders falsyErrorBody) 0).1 =
      .ok { data := .undefined, requestId := .null
          , rateLimit := ⟨some 1000, some 1000, some 0⟩, pagination := none } := by
  refine ⟨rfl, rfl, ?_⟩
  unfold request
  rfl

/-- C6 (amended): a thrown value that axios does not recognize as its own
error follows the claimed rule — an Error whose message contains "timeout"
propagates as TIMEOUT/408, any other Error as NETWORK_ERROR/0 with its
message preserved, a non-Error as NETWORK_ERROR/0 with a fallback message.
But an axios error carrying no structured response (the realistic
transport timeout) is instead classified through the status table with
status 0, producing a generic UNKNOWN_ERROR failure with statusCode 0
regardless of its message — the counterexample refutes the claim as
stated. -/
theorem claim6_transport_exceptions (cfg : HttpClientState)
    (transport : Nat → TransportOutcome) :
    (∀ m, transport 0 = .exception (some m) → jsIncludes m "timeout" = true →
      request cfg transport 0 =
        (.err (RooguysError.base (.str "Request timeout") "TIMEOUT" 408), 1)) ∧
    (∀ m, transport 0 = .exception (some m) → jsIncludes m "timeout" = false →
      request cfg transport 0 =
        (.err (RooguysError.base (.str m) "NETWORK_ERROR" 0), 1)) ∧
    (transport 0 = .exception none →
      request cfg transport 0 =
        (.err (RooguysError.base (.str "Network error") "NETWORK_ERROR" 0), 1)) ∧
    (∀ m, transport 0 = .axiosNoResponse m →
      request cfg transport 0 = (.err noResponseError, 1)) := by
  refine ⟨?_, ?_, ?_, ?_⟩
  · intro m htr hin
    unfold request
    rw [htr]
    dsimp only
    unfold interpretException
    dsimp only
    rw [if_pos hin]
  · intro m htr hin
    unfold request
    rw [htr]
    dsimp only
    unfold interpretException
    dsimp only
    rw [if_neg (by simp [hin])]
  · intro htr
    unfold request
    rw [htr]
    exact rfl
  · intro m htr
    unfold request
    rw [htr]

theorem claim6_transport_exceptions_witness :
    request (mkHttpClient "key" {})
        (fun _ => .exception (some "timeout of 10000ms exceeded")) 0 =
      (.err (RooguysError.base (.str "Request timeout") "TIMEOUT" 408), 1) ∧
    request (mkHttpClient "key" {}) (fun _ => .exception (some "socket hang up")) 0 =
      (.err (RooguysError.base (.str "socket hang up") "NETWORK_ERROR" 0), 1) := by
  constructor
  · exact (claim6_transport_exceptions (mkHttpClient "key" {}) _).1
      "timeout of 10000ms exceeded" rfl (by decide)
  · exact (claim6_transport_exceptions (mkHttpClient "key" {}) _).2.1
      "socket hang up" rfl (by decide)

/-- C6 counterexample: an axios-flagged transport exception with no
structured HTTP response and the message "timeout of 10000ms exceeded" —
exactly what an axios timeout raises — is propagated as a generic failure
with code UNKNOWN_ERROR and statusCode 0, not as the claimed TIMEOUT/408:
status extraction `response?.status || 0` sends it through the status
table before the timeout test can ever run. -/
theorem claim6_counterexample :
    (request (mkHttpClient "key" {})
        (fun _ => .axiosNoResponse "timeout of 10000ms exceeded") 0).1 =
      .err noResponseError ∧
    noResponseError.statusCode = 0 ∧
    noResponseError.code = .str "UNKNOWN_ERROR" ∧
    noResponseError.statusCode ≠ 408 ∧
    noResponseError.code ≠ .str "TIMEOUT" := by
  refine ⟨?_, rfl, rfl, by decide, ?_⟩
  · unfold request
    rfl
  · intro hc
    have hc2 : JsValue.str "UNKNOWN_ERROR" = JsValue.str "TIMEOUT" := hc
    exact absurd (JsValue.str.inj hc2) (by decide)

/-- C10: explicitly falsy constructor options are silently replaced by the
built-in defaults because the source defaults with `||`: maxRetries 0
behaves as 3 (so with auto-retry on, an always-429 transport still gets 4
dispatch attempts, i.e. 3 retries), timeout 0 behaves as 10000 ms,
retryDelay 0 as 1000, and the empty baseUrl as the default base URL. -/
theorem claim10_falsy_options :
    (mkHttpClient "key" { maxRetries := some 0 }).maxRetries = 3 ∧
    (mkHttpClient "key" { timeout := some 0 }).timeout = 10000 ∧
    (mkHttpClient "key" { retryDelay := some 0 }).retryDelay = 1000 ∧
    (mkHttpClient "key" { baseUrl := some "" }).baseUrl = "https://api.rooguys.com/v1" ∧
    (request (mkHttpClient "key" { autoRetry := some true, maxRetries := some 0 })
      (fun _ => TransportOutcome.httpError 429 emptyHeaders .null) 0).2 = 4 := by
  refine ⟨rfl, rfl, rfl, rfl, ?_⟩
  have h := request_always429
    (mkHttpClient "key" { autoRetry := some true, maxRetries := some 0 })
    (fun _ => TransportOutcome.httpError 429 emptyHeaders .null) rfl
    (fun n => ⟨emptyHeaders, .null, rfl⟩) 0
  have h2 : ((mkHttpClient "key" { autoRetry := some true, maxRetries := some 0 }).maxRetries
      - ((0 : Nat) : Int)).toNat + 1 = 4 := rfl
  exact h.1.trans h2

theorem claim9_build_params_witness :
    buildParams
        [("a", .num 0), ("b", .bool false), ("c", .str ""), ("d", .null), ("e", .undefined)] =
      [("a", .num 0), ("b", .bool false), ("c", .str "")] := by
  rw [claim9_build_params
    [("a", .num 0), ("b", .bool false), ("c", .str ""), ("d", .null), ("e", .undefined)]
    (by decide)]
  rfl

end Rooguys
